import Mathlib

/-!
Verification of the upload-pipeline glue of the `Uploader` component
(`src/src/api/electronStore.ts`, the React uploader) against its
natural-language specification.

The component is shallowly embedded: each source function becomes a pure
Lean function over an explicit state, and its observable effects (calls to
the upload manager, dialogs, notifications, persistence calls, router
reload) are recorded as a trace of `Action`s.  External collaborators
(`syncCollections`, `createAlbum`, `uploadManager.queueFilesForUpload`,
`uploadManager.retryFailedFiles`) are an environment of `Except` results,
so every control path of the source (resolve / reject) is a value of the
environment.
-/

namespace Ente

/-- A remote collection (album): `id` is server-assigned, `name` is the
album name.  Mirrors the `Collection` fields the uploader uses. -/
structure Collection where
  id : Nat
  name : String
deriving DecidableEq, Repr

/-- A local file reference: `name` is the file name, `parent` is the
top-level folder component of its relative path (`""` when the file was
picked loose, with no folder structure). -/
structure UFile where
  name : String
  parent : String
deriving DecidableEq, Repr

/-- A file paired with its target collection and the batch-local id,
mirroring `FileWithCollection` (`{ file, localID, collectionID }`). -/
structure FileWithCollection where
  file : UFile
  localID : Nat
  collectionID : Nat
deriving DecidableEq, Repr

/-- The distinguished error kinds of `CustomError` that the uploader
switches on, plus `other` for every remaining error message. -/
inductive CustomError where
  | sessionExpired
  | subscriptionExpired
  | storageQuotaExceeded
  | other (msg : String)
deriving DecidableEq, Repr

/-- Upload type (`UPLOAD_TYPE`): files, folders or Google-takeout zips. -/
inductive UploadType where
  | files
  | folders
  | zips
deriving DecidableEq, Repr

/-- Upload strategy (`UPLOAD_STRATEGY`). -/
inductive UploadStrategy where
  | singleCollection
  | collectionPerFolder
deriving DecidableEq, Repr

/-- The dialog messages the uploader can show via `setDialogMessage`. -/
inductive DialogKind where
  | createAlbumFailed
  | canvasBlocked
deriving DecidableEq, Repr

/-- A user-facing notification (`NotificationAttributes`): variant,
message, optional action-button text, and whether an icon is attached. -/
structure Notification where
  variant : String
  message : String
  actionText : Option String
  hasIcon : Bool
deriving DecidableEq, Repr

/-- Observable effects of the uploader, recorded in traces. -/
inductive Action where
  | closeCollectionSelector
  | closeUploadTypeSelector
  | prepareForNewUpload
  | openUploadProgress
  | closeUploadProgress
  | setUploadInProgress (b : Bool)
  | syncWithRemote (force : Bool) (silent : Bool)
  | syncCollectionsCall
  | createAlbumCall (name : String)
  | queueFilesForUploadCall (files : List FileWithCollection) (colls : List Collection)
  | retryFailedFilesCall
  | logErrorMsg (context : String)
  | showDialog (d : DialogKind)
  | showNotificationAttributes (n : Notification)
  | showSessionExpiredMessage
  | setToUploadCollection (colls : List Collection)
  | setToUploadFiles (typ : UploadType) (paths : List String)
  | cancelRemainingUploads
  | routerReload
deriving DecidableEq, Repr

/-- `true` exactly on `queueFilesForUploadCall` actions. -/
def Action.isQueueCall : Action → Bool
  | Action.queueFilesForUploadCall _ _ => true
  | _ => false

/-- Results of the external collaborators, one value per batch attempt:
`syncCollections` / `createAlbum` are the remote collection service,
`queueFilesForUpload` / `retryFailedFiles` the upload manager's queueing
calls, `isElectron` the platform probe. -/
structure Env where
  syncCollections : Except CustomError (List Collection)
  createAlbum : String → List Collection → Except CustomError Collection
  queueFilesForUpload : List FileWithCollection → List Collection → Except CustomError Unit
  retryFailedFiles : Except CustomError Unit
  isElectron : Bool

/-- `FIRST_ALBUM_NAME = 'My First Album'` (line 67 of the source). -/
def FIRST_ALBUM_NAME : String := "My First Album"

/-- `preUploadAction`: close selectors, reset the manager for a new
batch, open the progress view, raise the in-progress flag, forced silent
remote sync (lines 306-313). -/
def preUploadAction : List Action :=
  [Action.closeCollectionSelector, Action.closeUploadTypeSelector,
   Action.prepareForNewUpload, Action.openUploadProgress,
   Action.setUploadInProgress true, Action.syncWithRemote true true]

/-- `postUploadAction`: drop the in-progress flag and trigger a remote
sync (lines 315-318). -/
def postUploadAction : List Action :=
  [Action.setUploadInProgress false, Action.syncWithRemote false false]

/-- The batch built by `uploadFilesToExistingCollection` (lines 234-239):
each file is paired with the chosen collection id and `localID := index`
of the enumeration. -/
def filesWithCollectionForExisting (files : List UFile) (collection : Collection) :
    List FileWithCollection :=
  files.enum.map (fun p =>
    { file := p.2, localID := p.1, collectionID := collection.id })

/-- The `for (const [collectionName, files] of collectionNameToFilesMap)`
loop of `uploadFilesToNewCollections` (lines 270-288): create one album
per group, then push one `FileWithCollection` per file of the group with
`localID := index++` (a single counter across the whole loop).  Returns
the `(collections, filesWithCollectionToUpload)` accumulators on success,
the first error otherwise, together with the trace of `createAlbum`
calls. -/
def createCollectionsLoop (env : Env) (existing : List Collection) :
    List (String × List UFile) → Nat →
    Except CustomError (List Collection × List FileWithCollection) × List Action
  | [], _ => (Except.ok ([], []), [])
  | g :: rest, index =>
    match env.createAlbum g.1 existing with
    | Except.error e => (Except.error e, [Action.createAlbumCall g.1])
    | Except.ok c =>
      let fwcs : List FileWithCollection := g.2.enum.map (fun p =>
        { file := p.2, localID := index + p.1, collectionID := c.id })
      match createCollectionsLoop env existing rest (index + g.2.length) with
      | (Except.error e, tr) => (Except.error e, Action.createAlbumCall g.1 :: tr)
      | (Except.ok (cs, fs), tr) =>
          (Except.ok (c :: cs, fwcs ++ fs), Action.createAlbumCall g.1 :: tr)

/-- Modelled from the spec: `groupFilesBasedOnParentFolder`
(`utils/upload`) is not under `src/`.  Per the spec, the
COLLECTION_PER_FOLDER strategy partitions the batch by each file's
top-level folder component, groups listed in first-encountered order. -/
def groupFilesBasedOnParentFolder (files : List UFile) : List (String × List UFile) :=
  ((files.map (fun f => f.parent)).dedup).map
    (fun k => (k, files.filter (fun f => f.parent = k)))

/-- The `collectionNameToFilesMap` built in `uploadFilesToNewCollections`
(lines 254-267): one group holding the whole batch for
SINGLE_COLLECTION, the parent-folder grouping otherwise. -/
def collectionNameToFilesMap (strategy : UploadStrategy) (collectionName : String)
    (toUpload : List UFile) : List (String × List UFile) :=
  match strategy with
  | UploadStrategy.singleCollection => [(collectionName, toUpload)]
  | UploadStrategy.collectionPerFolder => groupFilesBasedOnParentFolder toUpload

/-- The actions of the inner `catch` of `uploadFilesToNewCollections`
(lines 289-298): close the progress dialog, log, show the
"album creation failed" dialog (the error is then rethrown). -/
def albumCreationFailureActions : List Action :=
  [Action.closeUploadProgress, Action.logErrorMsg "Failed to create album",
   Action.showDialog DialogKind.createAlbumFailed]

/-- The grouping pass of `uploadFilesToNewCollections`: the inner
`try { syncCollections; loop } catch { ...; throw e }` block
(lines 268-299).  On any failure of the remote sync or of an album
creation it emits the failure actions and propagates the error. -/
def groupingPass (env : Env) (groups : List (String × List UFile)) :
    Except CustomError (List Collection × List FileWithCollection) × List Action :=
  match env.syncCollections with
  | Except.error e =>
      (Except.error e, Action.syncCollectionsCall :: albumCreationFailureActions)
  | Except.ok existing =>
    match createCollectionsLoop env existing groups 0 with
    | (Except.error e, tr) =>
        (Except.error e, Action.syncCollectionsCall :: (tr ++ albumCreationFailureActions))
    | (Except.ok res, tr) => (Except.ok res, Action.syncCollectionsCall :: tr)

/-- The distinguished user-facing surfacing of `showUserFacingError`
(lines 366-399): session expiry calls the session-expired message and
returns; the other three kinds set one notification. -/
def showUserFacingErrorActions : CustomError → List Action
  | CustomError.sessionExpired => [Action.showSessionExpiredMessage]
  | CustomError.subscriptionExpired =>
      [Action.showNotificationAttributes
        { variant := "danger", message := "SUBSCRIPTION_EXPIRED",
          actionText := some "UPGRADE_NOW", hasIcon := false }]
  | CustomError.storageQuotaExceeded =>
      [Action.showNotificationAttributes
        { variant := "danger", message := "STORAGE_QUOTA_EXCEEDED",
          actionText := some "RENEW_NOW", hasIcon := true }]
  | CustomError.other _ =>
      [Action.showNotificationAttributes
        { variant := "danger", message := "UNKNOWN_ERROR",
          actionText := none, hasIcon := false }]

/-- `uploadFiles` (lines 320-352): on Electron without a pending desktop
upload, persist the target collections and file paths; then queue the
batch; on rejection surface the error and close the progress dialog and
rethrow; `postUploadAction` always runs (`finally`). -/
def uploadFilesFn (env : Env) (isPendingDesktopUpload : Bool)
    (zipPaths : Option (List String)) (files : List FileWithCollection)
    (colls : List Collection) : Except CustomError Unit × List Action :=
  let persistActions : List Action :=
    if env.isElectron && !isPendingDesktopUpload then
      [Action.setToUploadCollection colls] ++
      (match zipPaths with
       | some zs => [Action.setToUploadFiles UploadType.zips zs]
       | none => []) ++
      [Action.setToUploadFiles UploadType.files (files.map (fun f => f.file.name))]
    else []
  match env.queueFilesForUpload files colls with
  | Except.ok _ =>
      (Except.ok (),
       persistActions ++ [Action.queueFilesForUploadCall files colls] ++ postUploadAction)
  | Except.error e =>
      (Except.error e,
       persistActions ++ [Action.queueFilesForUploadCall files colls] ++
        showUserFacingErrorActions e ++ [Action.closeUploadProgress] ++ postUploadAction)

/-- Full trace of `uploadFilesToNewCollections` (lines 246-304):
`preUploadAction`, build the name-to-files map, run the grouping pass
(aborting and logging on its failure), then hand the batch to
`uploadFiles`; the outer `catch` only logs. -/
def uploadFilesToNewCollectionsTrace (env : Env) (isPendingDesktopUpload : Bool)
    (zipPaths : Option (List String)) (strategy : UploadStrategy)
    (collectionName : String) (toUpload : List UFile) : List Action :=
  preUploadAction ++
  (match groupingPass env (collectionNameToFilesMap strategy collectionName toUpload) with
   | (Except.error _, tr) =>
       tr ++ [Action.logErrorMsg "Failed to upload files to new collections"]
   | (Except.ok (colls, fwcs), tr) =>
       tr ++
       (match uploadFilesFn env isPendingDesktopUpload zipPaths fwcs colls with
        | (Except.ok _, tr2) => tr2
        | (Except.error _, tr2) =>
            tr2 ++ [Action.logErrorMsg "Failed to upload files to new collections"]))

/-- Trace of `retryFailed` (lines 354-364): `preUploadAction`, the
manager's `retryFailedFiles` call, error surfacing on rejection, and
`postUploadAction` always (`finally`). -/
def retryFailedTrace (env : Env) : List Action :=
  preUploadAction ++ [Action.retryFailedFilesCall] ++
  (match env.retryFailedFiles with
   | Except.ok _ => []
   | Except.error e => showUserFacingErrorActions e ++ [Action.closeUploadProgress]) ++
  postUploadAction

/-- `cancelUploads` (lines 487-494): close the progress dialog, cancel
the remaining native uploads on Electron, drop the in-progress flag,
reload the page. -/
def cancelUploads (isElectronApp : Bool) : List Action :=
  [Action.closeUploadProgress] ++
  (if isElectronApp then [Action.cancelRemainingUploads] else []) ++
  [Action.setUploadInProgress false, Action.routerReload]

/-- `ImportSuggestion`: whether the batch spans several top-level
folders, and the shared root folder name (`""` when absent). -/
structure ImportSuggestion where
  hasNestedFolders : Bool
  rootFolderName : String
deriving DecidableEq, Repr

/-- Modelled from the spec: `getImportSuggestion` (`utils/upload`) is not
under `src/`.  Per the spec, zero or one distinct top-level directory
yields `hasNestedFolders = false` with that shared name (or absent for
loose files); two or more yield `hasNestedFolders = true`. -/
def getImportSuggestion (files : List UFile) : ImportSuggestion :=
  match ((files.map (fun f => f.parent)).filter (fun p => p ≠ "")).dedup with
  | [] => { hasNestedFolders := false, rootFolderName := "" }
  | [t] => { hasNestedFolders := false, rootFolderName := t }
  | _ => { hasNestedFolders := true, rootFolderName := "" }

/-- The component state the `Uploader`'s hooks and refs hold: the
in-progress flag, the three pending file sources, the `toUploadFiles`
ref, and the pending-desktop-upload refs. -/
structure UploaderState where
  uploadInProgress : Bool
  canvasBlocked : Bool
  isElectronApp : Bool
  isFirstUpload : Bool
  webFiles : List UFile
  sharedFiles : List UFile
  electronFiles : List UFile
  toUploadFiles : List UFile
  isPendingDesktopUpload : Bool
  pendingDesktopUploadCollectionName : String
  uploadType : UploadType
deriving DecidableEq, Repr

/-- Where `handleCollectionCreationAndUpload` routes the arrived batch:
straight to a single new collection, to the collection-create name modal,
to per-folder collections, or to the collection selector whose
`showNextModal` is the nested route. -/
inductive UploadRoute where
  | singleNewCollection (name : String)
  | showCollectionCreateModal
  | newCollectionsPerFolder
  | choiceModal
  | collectionSelector (next : UploadRoute)
deriving DecidableEq, Repr

/-- `uploadToSingleNewCollection` (lines 401-410): a truthy name goes to
`uploadFilesToNewCollections(SINGLE_COLLECTION, name)`, an empty one
opens the collection-create modal. -/
def uploadToSingleNewCollection (name : String) : UploadRoute :=
  if name = "" then UploadRoute.showCollectionCreateModal
  else UploadRoute.singleNewCollection name

/-- `handleCollectionCreationAndUpload` (lines 420-457): a pending
desktop upload is consumed first (flag reset, recorded name or per-folder
fallback); then the Electron-zip case; otherwise the first-upload default
album name is substituted and the collection selector is shown with the
appropriate `showNextModal`. -/
def handleCollectionCreationAndUpload (s : UploaderState) (suggestion : ImportSuggestion) :
    UploaderState × UploadRoute :=
  if s.isPendingDesktopUpload then
    if s.pendingDesktopUploadCollectionName = "" then
      ({ s with isPendingDesktopUpload := false }, UploadRoute.newCollectionsPerFolder)
    else
      ({ s with isPendingDesktopUpload := false, pendingDesktopUploadCollectionName := "" },
       uploadToSingleNewCollection s.pendingDesktopUploadCollectionName)
  else if s.isElectronApp ∧ s.uploadType = UploadType.zips then
    (s, UploadRoute.newCollectionsPerFolder)
  else
    let rootName :=
      if s.isFirstUpload ∧ suggestion.rootFolderName = "" then FIRST_ALBUM_NAME
      else suggestion.rootFolderName
    let next :=
      if suggestion.hasNestedFolders then UploadRoute.choiceModal
      else uploadToSingleNewCollection rootName
    (s, UploadRoute.collectionSelector next)

/-- The files-arrived effect (lines 166-216): when any source holds
files, an in-progress upload makes the trigger a no-op; a blocked canvas
shows a dialog and stops; otherwise the first non-empty source (web,
shared, electron, in that order) is moved into `toUploadFiles` and the
batch is routed through `handleCollectionCreationAndUpload`. -/
def filesArrivedEffect (s : UploaderState) : UploaderState × Option UploadRoute :=
  if s.electronFiles ≠ [] ∨ s.webFiles ≠ [] ∨ s.sharedFiles ≠ [] then
    if s.uploadInProgress then (s, none)
    else if s.canvasBlocked then (s, none)
    else
      let s1 :=
        if s.webFiles ≠ [] then { s with toUploadFiles := s.webFiles, webFiles := [] }
        else if s.sharedFiles ≠ [] then
          { s with toUploadFiles := s.sharedFiles, sharedFiles := [] }
        else { s with toUploadFiles := s.electronFiles, electronFiles := [] }
      let res := handleCollectionCreationAndUpload s1 (getImportSuggestion s1.toUploadFiles)
      (res.1, some res.2)
  else (s, none)

/-- `resumeDesktopUpload` (lines 218-229): a non-empty resumed file list
raises the pending flag, records the collection name and type, and feeds
the files into the electron source. -/
def resumeDesktopUpload (typ : UploadType) (files : List UFile) (collectionName : String)
    (s : UploaderState) : UploaderState :=
  if files ≠ [] then
    { s with isPendingDesktopUpload := true,
             pendingDesktopUploadCollectionName := collectionName,
             uploadType := typ, electronFiles := files }
  else s

/-- The persisted pending desktop upload: `{files, collectionName,
uploadType}`. -/
structure PendingUploadRecord where
  files : List UFile
  collectionName : String
  typ : UploadType
deriving DecidableEq, Repr

/-- Modelled from the spec: the pending-upload store
(`ImportService.getPendingUploads` and its clearing) is not under
`src/`.  Per the spec, the record is read once at process start and
cleared once consumed; the startup effect (lines 137-143) then runs
`resumeDesktopUpload` on what was read. -/
def startupReadPendingUploads (store : Option PendingUploadRecord) (s : UploaderState) :
    Option PendingUploadRecord × UploaderState :=
  match store with
  | none => (none, s)
  | some r => (none, resumeDesktopUpload r.typ r.files r.collectionName s)

/-- The `Uploader` state right after mount on a fresh process start. -/
def initialUploaderState (isElectronApp : Bool) (isFirstUpload : Bool) : UploaderState :=
  { uploadInProgress := false, canvasBlocked := false,
    isElectronApp := isElectronApp, isFirstUpload := isFirstUpload,
    webFiles := [], sharedFiles := [], electronFiles := [], toUploadFiles := [],
    isPendingDesktopUpload := false, pendingDesktopUploadCollectionName := "",
    uploadType := UploadType.files }

/-- The upload manager's batch state the spec calls `UploadBatchState`:
the `finished`/`total` counters, the recorded failed items, and the
queue of enqueued items. -/
structure ManagerState where
  finished : Nat
  total : Nat
  failed : List FileWithCollection
  queued : List FileWithCollection
deriving DecidableEq, Repr

/-- Modelled from the spec: `uploadManager.prepareForNewUpload` is not
under `src/`.  Per the spec it resets `UploadBatchState` to empty/zero. -/
def prepareForNewUploadM (_ : ManagerState) : ManagerState :=
  { finished := 0, total := 0, failed := [], queued := [] }

/-- Modelled from the spec: `uploadManager.queueFilesForUpload` is not
under `src/`.  Per the spec it enqueues all the given items as the new
batch, so the fresh batch counters start at `finished = 0`,
`total = items.length`. -/
def queueFilesForUploadM (items : List FileWithCollection) (m : ManagerState) :
    ManagerState :=
  { m with finished := 0, total := items.length, queued := items }

/-- The retry-failed operation as `retryFailed` (lines 354-364) sequences
it: `preUploadAction` runs the manager's `prepareForNewUpload`, then
`retryFailedFiles` re-enqueues only the items recorded as Failed at the
time of the call (modelled from the spec, since the manager is not under
`src/`). -/
def retryFailedM (m : ManagerState) : ManagerState :=
  queueFilesForUploadM m.failed (prepareForNewUploadM m)

/-- The system-level state the cancellation contract speaks about:
progress view, the in-progress flag, the live batch state, whether the
manager may dequeue further items, native-side uploads, and whether a UI
reload was requested. -/
structure SystemState where
  progressViewOpen : Bool
  uploadInProgress : Bool
  batchState : Option ManagerState
  dequeueEnabled : Bool
  nativeUploadsActive : Bool
  uiReloadRequested : Bool
deriving DecidableEq, Repr

/-- Modelled from the spec: the effect of each emitted instruction on the
system state.  `Router.reload` reloads the page, which clears the
in-memory `UploadBatchState` and stops any further dequeuing (the spec's
"UploadBatchState is cleared and the UI is instructed to reload/reset");
`cancelRemainingUploads` stops the native-side uploads. -/
def applyAction (st : SystemState) : Action → SystemState
  | Action.closeUploadProgress => { st with progressViewOpen := false }
  | Action.openUploadProgress => { st with progressViewOpen := true }
  | Action.setUploadInProgress b => { st with uploadInProgress := b }
  | Action.cancelRemainingUploads => { st with nativeUploadsActive := false }
  | Action.routerReload =>
      { st with uiReloadRequested := true, batchState := none, dequeueEnabled := false }
  | _ => st

/-- `true` exactly on the user-facing surfacing actions of
`showUserFacingError` (the session-expired message and the notification
attributes). -/
def Action.isUserFacing : Action → Bool
  | Action.showSessionExpiredMessage => true
  | Action.showNotificationAttributes _ => true
  | _ => false

/-! ## Helper lemmas about the album-creation loop -/

/-- On success, the loop's trace is exactly one `createAlbum` call per
group, in group order. -/
theorem createCollectionsLoop_trace_of_ok (env : Env) (ex : List Collection)
    (groups : List (String × List UFile)) (idx : Nat) (cs : List Collection)
    (fs : List FileWithCollection) (tr : List Action)
    (h : createCollectionsLoop env ex groups idx = (Except.ok (cs, fs), tr)) :
    tr = groups.map (fun g => Action.createAlbumCall g.1) := by
  induction groups generalizing idx cs fs tr with
  | nil =>
    simp only [createCollectionsLoop, Prod.mk.injEq, Except.ok.injEq] at h
    simp [h.2.symm]
  | cons g rest ih =>
    simp only [createCollectionsLoop] at h
    rcases hca : env.createAlbum g.1 ex with e | c <;> rw [hca] at h
    · simp at h
    · rcases hrec : createCollectionsLoop env ex rest (idx + g.2.length) with ⟨r, tr'⟩
      rw [hrec] at h
      cases r with
      | error e => simp at h
      | ok pr =>
        rcases pr with ⟨cs', fs'⟩
        simp only [Prod.mk.injEq, Except.ok.injEq] at h
        obtain ⟨⟨-, -⟩, htr⟩ := h
        rw [← htr, ih _ _ _ _ hrec]
        simp

/-- The loop's trace never contains a `queueFilesForUpload` call,
whatever the outcome. -/
theorem createCollectionsLoop_trace_no_queue (env : Env) (ex : List Collection)
    (groups : List (String × List UFile)) (idx : Nat) :
    ((createCollectionsLoop env ex groups idx).2).countP
      (fun a => a.isQueueCall) = 0 := by
  induction groups generalizing idx with
  | nil => simp [createCollectionsLoop]
  | cons g rest ih =>
    simp only [createCollectionsLoop]
    rcases hca : env.createAlbum g.1 ex with e | c
    · simp [Action.isQueueCall]
    · rcases hrec : createCollectionsLoop env ex rest (idx + g.2.length) with ⟨r, tr'⟩
      have := ih (idx + g.2.length)
      rw [hrec] at this
      cases r with
      | error e => simpa [Action.isQueueCall] using this
      | ok pr =>
        rcases pr with ⟨cs', fs'⟩
        simpa [Action.isQueueCall] using this

/-- If some group's album creation fails, the loop fails. -/
theorem createCollectionsLoop_error_of_mem (env : Env) (ex : List Collection)
    (groups : List (String × List UFile)) (idx : Nat)
    (h : ∃ g ∈ groups, ∃ err, env.createAlbum g.1 ex = Except.error err) :
    ∃ e, (createCollectionsLoop env ex groups idx).1 = Except.error e := by
  induction groups generalizing idx with
  | nil => simp at h
  | cons g rest ih =>
    simp only [createCollectionsLoop]
    rcases hca : env.createAlbum g.1 ex with e | c
    · exact ⟨e, rfl⟩
    · rcases h with ⟨g', hg', err, herr⟩
      rcases List.mem_cons.1 hg' with hgg | hmem
      · rw [hgg] at herr
        rw [herr] at hca
        cases hca
      · obtain ⟨e, he⟩ := ih (idx + g.2.length) ⟨g', hmem, err, herr⟩
        rcases hrec : createCollectionsLoop env ex rest (idx + g.2.length) with ⟨r, tr'⟩
        rw [hrec] at he
        cases r with
        | error e2 => exact ⟨e2, rfl⟩
        | ok pr => cases he

/-- On success, the assigned `localID`s of the whole built batch are the
consecutive indices starting from the loop's starting index. -/
theorem createCollectionsLoop_localIDs (env : Env) (ex : List Collection)
    (groups : List (String × List UFile)) (idx : Nat) (cs : List Collection)
    (fs : List FileWithCollection) (tr : List Action)
    (h : createCollectionsLoop env ex groups idx = (Except.ok (cs, fs), tr)) :
    fs.map (fun fwc => fwc.localID) =
      (List.range ((groups.map (fun g => g.2.length)).sum)).map
        (fun i => idx + i) := by
  induction groups generalizing idx cs fs tr with
  | nil =>
    simp only [createCollectionsLoop, Prod.mk.injEq, Except.ok.injEq] at h
    simp [← h.1.2]
  | cons g rest ih =>
    simp only [createCollectionsLoop] at h
    rcases hca : env.createAlbum g.1 ex with e | c <;> rw [hca] at h
    · simp at h
    · rcases hrec : createCollectionsLoop env ex rest (idx + g.2.length) with ⟨r, tr'⟩
      rw [hrec] at h
      cases r with
      | error e => simp at h
      | ok pr =>
        rcases pr with ⟨cs', fs'⟩
        simp only [Prod.mk.injEq, Except.ok.injEq] at h
        obtain ⟨⟨-, hfs⟩, -⟩ := h
        rw [← hfs]
        have hrest := ih _ _ _ _ hrec
        rw [List.map_append, hrest]
        have hhead : (List.map (fun fwc => fwc.localID)
            (g.2.enum.map (fun p =>
              ({ file := p.2, localID := idx + p.1, collectionID := c.id } :
                FileWithCollection)))) =
            (List.range g.2.length).map (fun i => idx + i) := by
          rw [List.map_map, ← List.enum_map_fst g.2, List.map_map]
          rfl
        rw [hhead]
        simp only [List.map_cons, List.sum_cons, List.range_add, List.map_append,
          List.map_map]
        congr 1
        congr 1
        funext i
        simp [Function.comp, Nat.add_assoc]

/-- On success, every file of every group got a `FileWithCollection`
carrying the id of the collection created for that group's name. -/
theorem createCollectionsLoop_assigns (env : Env) (ex : List Collection)
    (groups : List (String × List UFile)) (idx : Nat) (cs : List Collection)
    (fs : List FileWithCollection) (tr : List Action)
    (h : createCollectionsLoop env ex groups idx = (Except.ok (cs, fs), tr)) :
    ∀ g ∈ groups, ∃ c, env.createAlbum g.1 ex = Except.ok c ∧
      ∀ f ∈ g.2, ∃ fwc ∈ fs, fwc.file = f ∧ fwc.collectionID = c.id := by
  induction groups generalizing idx cs fs tr with
  | nil => simp
  | cons g rest ih =>
    simp only [createCollectionsLoop] at h
    rcases hca : env.createAlbum g.1 ex with e | c <;> rw [hca] at h
    · simp at h
    · rcases hrec : createCollectionsLoop env ex rest (idx + g.2.length) with ⟨r, tr'⟩
      rw [hrec] at h
      cases r with
      | error e => simp at h
      | ok pr =>
        rcases pr with ⟨cs', fs'⟩
        simp only [Prod.mk.injEq, Except.ok.injEq] at h
        obtain ⟨⟨-, hfs⟩, -⟩ := h
        intro g' hg'
        rcases List.mem_cons.1 hg' with hgg | hmem
        · subst hgg
          refine ⟨c, hca, fun f hf => ?_⟩
          have hf2 : f ∈ g'.2.enum.map Prod.snd := by
            rw [List.enum_map_snd]; exact hf
          obtain ⟨p, hp, hps⟩ := List.mem_map.1 hf2
          refine ⟨{ file := p.2, localID := idx + p.1, collectionID := c.id },
            ?_, hps, rfl⟩
          rw [← hfs]
          exact List.mem_append_left _ (List.mem_map_of_mem _ hp)
        · obtain ⟨c2, hc2, hall⟩ := ih _ _ _ _ hrec g' hmem
          refine ⟨c2, hc2, fun f hf => ?_⟩
          obtain ⟨fwc, hfwc, hpr⟩ := hall f hf
          refine ⟨fwc, ?_, hpr⟩
          rw [← hfs]
          exact List.mem_append_right _ hfwc

/-- On success, every built `FileWithCollection` came from some group
and carries the id of exactly that group's created collection. -/
theorem createCollectionsLoop_sound (env : Env) (ex : List Collection)
    (groups : List (String × List UFile)) (idx : Nat) (cs : List Collection)
    (fs : List FileWithCollection) (tr : List Action)
    (h : createCollectionsLoop env ex groups idx = (Except.ok (cs, fs), tr)) :
    ∀ fwc ∈ fs, ∃ g ∈ groups, ∃ c, env.createAlbum g.1 ex = Except.ok c ∧
      fwc.file ∈ g.2 ∧ fwc.collectionID = c.id := by
  induction groups generalizing idx cs fs tr with
  | nil =>
    simp only [createCollectionsLoop, Prod.mk.injEq, Except.ok.injEq] at h
    rw [← h.1.2]
    simp
  | cons g rest ih =>
    simp only [createCollectionsLoop] at h
    rcases hca : env.createAlbum g.1 ex with e | c <;> rw [hca] at h
    · simp at h
    · rcases hrec : createCollectionsLoop env ex rest (idx + g.2.length) with ⟨r, tr'⟩
      rw [hrec] at h
      cases r with
      | error e => simp at h
      | ok pr =>
        rcases pr with ⟨cs', fs'⟩
        simp only [Prod.mk.injEq, Except.ok.injEq] at h
        obtain ⟨⟨-, hfs⟩, -⟩ := h
        intro fwc hfwc
        rw [← hfs] at hfwc
        rcases List.mem_append.1 hfwc with hl | hr
        · obtain ⟨p, hp, hpe⟩ := List.mem_map.1 hl
          refine ⟨g, List.mem_cons_self g rest, c, hca, ?_, ?_⟩
          · rw [← hpe]
            have : p.2 ∈ g.2.enum.map Prod.snd := List.mem_map_of_mem _ hp
            rwa [List.enum_map_snd] at this
          · rw [← hpe]
        · obtain ⟨g', hg', c2, hc2, hin, hid⟩ := ih _ _ _ _ hrec fwc hr
          exact ⟨g', List.mem_cons_of_mem g hg', c2, hc2, hin, hid⟩

/-- The group names produced by `collectionNameToFilesMap` are pairwise
distinct, for both strategies. -/
theorem collectionNameToFilesMap_keys_nodup (strategy : UploadStrategy)
    (cname : String) (files : List UFile) :
    ((collectionNameToFilesMap strategy cname files).map Prod.fst).Nodup := by
  cases strategy with
  | singleCollection => simp [collectionNameToFilesMap]
  | collectionPerFolder =>
    show ((((files.map (fun f => f.parent)).dedup).map
      (fun k => (k, files.filter (fun f => f.parent = k)))).map Prod.fst).Nodup
    rw [List.map_map]
    have hcomp : (Prod.fst ∘ fun k =>
        (k, files.filter (fun f => f.parent = k))) = fun k => k := rfl
    rw [hcomp, List.map_id']
    exact (files.map (fun f => f.parent)).nodup_dedup

/-- The grouping pass never emits a `queueFilesForUpload` call. -/
theorem groupingPass_trace_no_queue (env : Env)
    (groups : List (String × List UFile)) :
    ((groupingPass env groups).2).countP (fun a => a.isQueueCall) = 0 := by
  rcases hsync : env.syncCollections with e | ex
  · simp [groupingPass, hsync, albumCreationFailureActions, Action.isQueueCall]
  · have hq := createCollectionsLoop_trace_no_queue env ex groups 0
    rcases hl : createCollectionsLoop env ex groups 0 with ⟨r, tr⟩
    rw [hl] at hq
    have hq2 : tr.countP (fun a => a.isQueueCall) = 0 := hq
    cases r with
    | error e =>
      simp only [groupingPass, hsync, hl, List.countP_cons, List.countP_append,
        hq2, albumCreationFailureActions]
      simp [Action.isQueueCall]
    | ok pr =>
      simp only [groupingPass, hsync, hl, List.countP_cons, hq2]
      simp [Action.isQueueCall]

/-- When the grouping pass fails, its trace closes the progress dialog
and shows the album-creation-failed dialog. -/
theorem groupingPass_error_trace_mem (env : Env)
    (groups : List (String × List UFile)) (e : CustomError)
    (h : (groupingPass env groups).1 = Except.error e) :
    Action.closeUploadProgress ∈ (groupingPass env groups).2 ∧
    Action.showDialog DialogKind.createAlbumFailed ∈
      (groupingPass env groups).2 := by
  rcases hsync : env.syncCollections with e2 | ex
  · simp [groupingPass, hsync, albumCreationFailureActions]
  · rcases hl : createCollectionsLoop env ex groups 0 with ⟨r, tr⟩
    cases r with
    | error e2 => simp [groupingPass, hsync, hl, albumCreationFailureActions]
    | ok pr => simp [groupingPass, hsync, hl] at h

/-! ## Claims -/

/-- C4: whenever files arrive (web picker, shared files, or electron)
while an upload is already in progress, the trigger is a no-op: the state
is unchanged and no route (hence no new batch, no `prepareForNewUpload`)
is produced. -/
theorem C4_no_new_batch_while_in_progress (s : UploaderState)
    (h : s.uploadInProgress = true) :
    filesArrivedEffect s = (s, none) := by
  unfold filesArrivedEffect
  split
  · simp [h]
  · rfl

/-- Witness for C4 at a concrete state with one arrived web file. -/
theorem C4_no_new_batch_while_in_progress_witness :
    filesArrivedEffect
      { initialUploaderState true true with
          uploadInProgress := true, webFiles := [{ name := "a.jpg", parent := "" }] } =
    ({ initialUploaderState true true with
          uploadInProgress := true, webFiles := [{ name := "a.jpg", parent := "" }] },
     none) :=
  C4_no_new_batch_while_in_progress _ rfl

/-- C8: after `cancelUploads`, dequeuing is stopped, the batch state is
cleared, the in-progress flag is false, the progress dialog is closed,
the UI reload is requested, and on Electron the remaining native uploads
are cancelled. -/
theorem C8_cancel_stops_and_clears (st : SystemState) (b : Bool) :
    ((cancelUploads b).foldl applyAction st).dequeueEnabled = false ∧
    ((cancelUploads b).foldl applyAction st).batchState = none ∧
    ((cancelUploads b).foldl applyAction st).uploadInProgress = false ∧
    ((cancelUploads b).foldl applyAction st).progressViewOpen = false ∧
    ((cancelUploads b).foldl applyAction st).uiReloadRequested = true ∧
    (b = true → ((cancelUploads b).foldl applyAction st).nativeUploadsActive = false) := by
  cases b <;> simp [cancelUploads, applyAction]

/-- Witness for C8 on a concrete active system state, Electron case. -/
theorem C8_cancel_stops_and_clears_witness :
    ((cancelUploads true).foldl applyAction
      { progressViewOpen := true, uploadInProgress := true,
        batchState := some { finished := 1, total := 4, failed := [], queued := [] },
        dequeueEnabled := true, nativeUploadsActive := true,
        uiReloadRequested := false }).batchState = none ∧
    ((cancelUploads true).foldl applyAction
      { progressViewOpen := true, uploadInProgress := true,
        batchState := some { finished := 1, total := 4, failed := [], queued := [] },
        dequeueEnabled := true, nativeUploadsActive := true,
        uiReloadRequested := false }).nativeUploadsActive = false :=
  ⟨(C8_cancel_stops_and_clears _ true).2.1,
   (C8_cancel_stops_and_clears _ true).2.2.2.2.2 rfl⟩

/-- C10: `uploadFiles` and `retryFailed` always end with
`postUploadAction` (the `finally` step), whether the queueing call
resolves or rejects; `postUploadAction` drops the in-progress flag and
triggers a remote sync. -/
theorem C10_post_upload_action_always_runs (env : Env) (p : Bool)
    (z : Option (List String)) (files : List FileWithCollection)
    (colls : List Collection) :
    (∃ pre, (uploadFilesFn env p z files colls).2 = pre ++ postUploadAction) ∧
    (∃ pre, retryFailedTrace env = pre ++ postUploadAction) ∧
    postUploadAction =
      [Action.setUploadInProgress false, Action.syncWithRemote false false] := by
  refine ⟨?_, ?_, rfl⟩
  · unfold uploadFilesFn
    rcases hq : env.queueFilesForUpload files colls with e | u
    · refine ⟨(if env.isElectron && !p then
          [Action.setToUploadCollection colls] ++
          (match z with
           | some zs => [Action.setToUploadFiles UploadType.zips zs]
           | none => []) ++
          [Action.setToUploadFiles UploadType.files (files.map (fun f => f.file.name))]
        else []) ++ [Action.queueFilesForUploadCall files colls] ++
        showUserFacingErrorActions e ++ [Action.closeUploadProgress], ?_⟩
      simp [hq]
    · refine ⟨(if env.isElectron && !p then
          [Action.setToUploadCollection colls] ++
          (match z with
           | some zs => [Action.setToUploadFiles UploadType.zips zs]
           | none => []) ++
          [Action.setToUploadFiles UploadType.files (files.map (fun f => f.file.name))]
        else []) ++ [Action.queueFilesForUploadCall files colls], ?_⟩
      simp [hq]
  · unfold retryFailedTrace
    rcases hr : env.retryFailedFiles with e | u
    · refine ⟨preUploadAction ++ [Action.retryFailedFilesCall] ++
        showUserFacingErrorActions e ++ [Action.closeUploadProgress], ?_⟩
      simp [hr]
    · exact ⟨preUploadAction ++ [Action.retryFailedFilesCall], by simp [hr]⟩

/-- C5 as stated fails on the modelled code: with batch counters (3, 3)
and zero failed items, the retry-failed operation runs
`prepareForNewUpload`, which resets the counters to (0, 0), so they are
not unchanged. -/
theorem C5_counterexample :
    ({ finished := 3, total := 3, failed := [], queued := [] } : ManagerState).failed
      = [] ∧
    ¬ ((retryFailedM
          { finished := 3, total := 3, failed := [], queued := [] }).finished = 3 ∧
       (retryFailedM
          { finished := 3, total := 3, failed := [], queued := [] }).total = 3) := by
  decide

/-- C5 amended: calling the retry-failed operation with zero failed
items enqueues nothing, and resets the finished/total counters to zero;
the counters are unchanged exactly when they were already zero (the
cleared batch state). -/
theorem C5_retry_with_zero_failed (m : ManagerState) (h : m.failed = []) :
    (retryFailedM m).queued = [] ∧
    (retryFailedM m).finished = 0 ∧ (retryFailedM m).total = 0 ∧
    (m.finished = 0 → m.total = 0 →
      (retryFailedM m).finished = m.finished ∧ (retryFailedM m).total = m.total) := by
  refine ⟨by simp [retryFailedM, queueFilesForUploadM, prepareForNewUploadM, h],
    by simp [retryFailedM, queueFilesForUploadM, prepareForNewUploadM],
    by simp [retryFailedM, queueFilesForUploadM, prepareForNewUploadM, h],
    fun h1 h2 => ?_⟩
  rw [h1, h2]
  exact ⟨by simp [retryFailedM, queueFilesForUploadM, prepareForNewUploadM],
    by simp [retryFailedM, queueFilesForUploadM, prepareForNewUploadM, h]⟩

/-- Witness for the amended C5 at the cleared batch state. -/
theorem C5_retry_with_zero_failed_witness :
    (retryFailedM { finished := 0, total := 0, failed := [], queued := [] }).queued
      = [] ∧
    (retryFailedM
        { finished := 0, total := 0, failed := [], queued := [] }).finished = 0 ∧
    (retryFailedM { finished := 0, total := 0, failed := [], queued := [] }).total
      = 0 :=
  ⟨(C5_retry_with_zero_failed _ rfl).1, (C5_retry_with_zero_failed _ rfl).2.1,
   (C5_retry_with_zero_failed _ rfl).2.2.1⟩

/-- C6: on an error escalated from the queueing call, the trace of
`uploadFiles` surfaces exactly the one matching distinguished
notification of `showUserFacingError`: session expiry the
session-expired message, subscription expiry a danger notification with
an upgrade action, storage quota a danger notification with a renew
action, and every other error the unknown-error notification. -/
theorem C6_user_facing_error_surfaced_once (env : Env) (p : Bool)
    (z : Option (List String)) (files : List FileWithCollection)
    (colls : List Collection) (e : CustomError)
    (h : env.queueFilesForUpload files colls = Except.error e) :
    showUserFacingErrorActions CustomError.sessionExpired =
      [Action.showSessionExpiredMessage] ∧
    showUserFacingErrorActions CustomError.subscriptionExpired =
      [Action.showNotificationAttributes
        { variant := "danger", message := "SUBSCRIPTION_EXPIRED",
          actionText := some "UPGRADE_NOW", hasIcon := false }] ∧
    showUserFacingErrorActions CustomError.storageQuotaExceeded =
      [Action.showNotificationAttributes
        { variant := "danger", message := "STORAGE_QUOTA_EXCEEDED",
          actionText := some "RENEW_NOW", hasIcon := true }] ∧
    (∀ msg, showUserFacingErrorActions (CustomError.other msg) =
      [Action.showNotificationAttributes
        { variant := "danger", message := "UNKNOWN_ERROR",
          actionText := none, hasIcon := false }]) ∧
    ((uploadFilesFn env p z files colls).2).filter (fun a => a.isUserFacing) =
      showUserFacingErrorActions e := by
  refine ⟨rfl, rfl, rfl, fun msg => rfl, ?_⟩
  unfold uploadFilesFn
  rcases z with _ | zs <;>
    cases hel : env.isElectron <;>
      cases p <;>
        rcases e with _ | _ | _ | msg <;>
          simp [h, hel, showUserFacingErrorActions, Action.isUserFacing,
            postUploadAction]

/-- Witness for C6 with a queueing call rejecting with the
storage-quota-exceeded error. -/
theorem C6_user_facing_error_surfaced_once_witness :
    ((uploadFilesFn
        { syncCollections := Except.ok [],
          createAlbum := fun n _ => Except.ok { id := 1, name := n },
          queueFilesForUpload := fun _ _ =>
            Except.error CustomError.storageQuotaExceeded,
          retryFailedFiles := Except.ok (), isElectron := false }
        false none [] []).2).filter (fun a => a.isUserFacing) =
      showUserFacingErrorActions CustomError.storageQuotaExceeded :=
  (C6_user_facing_error_surfaced_once _ false none [] []
    CustomError.storageQuotaExceeded rfl).2.2.2.2

/-- C9: on the very first upload, a batch of loose files (no folder
components) routes through the collection selector to a single new
collection named exactly `FIRST_ALBUM_NAME = "My First Album"`, and the
SINGLE_COLLECTION grouping for that name maps that one name to the whole
batch. -/
theorem C9_first_upload_default_album_name (s : UploaderState)
    (files : List UFile)
    (h1 : s.isPendingDesktopUpload = false) (h2 : s.isFirstUpload = true)
    (h3 : ¬(s.isElectronApp = true ∧ s.uploadType = UploadType.zips))
    (h4 : ∀ f ∈ files, f.parent = "") :
    (handleCollectionCreationAndUpload s (getImportSuggestion files)).2 =
      UploadRoute.collectionSelector
        (UploadRoute.singleNewCollection FIRST_ALBUM_NAME) ∧
    FIRST_ALBUM_NAME = "My First Album" ∧
    collectionNameToFilesMap UploadStrategy.singleCollection FIRST_ALBUM_NAME files
      = [(FIRST_ALBUM_NAME, files)] := by
  have hs : getImportSuggestion files =
      { hasNestedFolders := false, rootFolderName := "" } := by
    unfold getImportSuggestion
    have hf : (files.map (fun f => f.parent)).filter (fun q => q ≠ "") = [] := by
      rw [List.filter_eq_nil_iff]
      intro a ha
      rw [List.mem_map] at ha
      obtain ⟨f, hfm, rfl⟩ := ha
      simp [h4 f hfm]
    rw [hf]
    rfl
  rw [hs]
  refine ⟨?_, rfl, rfl⟩
  simp [handleCollectionCreationAndUpload, h1, h2, h3,
    uploadToSingleNewCollection, FIRST_ALBUM_NAME]

/-- Witness for C9: three loose files, first-ever upload. -/
theorem C9_first_upload_default_album_name_witness :
    (handleCollectionCreationAndUpload (initialUploaderState false true)
      (getImportSuggestion
        [{ name := "a.jpg", parent := "" }, { name := "b.jpg", parent := "" },
         { name := "c.jpg", parent := "" }])).2 =
      UploadRoute.collectionSelector
        (UploadRoute.singleNewCollection FIRST_ALBUM_NAME) :=
  (C9_first_upload_default_album_name _ _ rfl rfl (by decide)
    (by decide)).1

/-- C1: if fetching the existing collections or creating an album for
any group fails in `uploadFilesToNewCollections`, the grouping pass
propagates the error, `queueFilesForUpload` is never invoked in the
whole trace, the progress dialog is closed, and the
album-creation-failed dialog is shown. -/
theorem C1_album_creation_failure_aborts (env : Env) (p : Bool)
    (z : Option (List String)) (strategy : UploadStrategy) (cname : String)
    (toUpload : List UFile)
    (hfail : (∃ e, env.syncCollections = Except.error e) ∨
      (∃ ex, env.syncCollections = Except.ok ex ∧
        ∃ g ∈ collectionNameToFilesMap strategy cname toUpload,
          ∃ err, env.createAlbum g.1 ex = Except.error err)) :
    (∃ e, (groupingPass env (collectionNameToFilesMap strategy cname toUpload)).1
      = Except.error e) ∧
    (∀ fwcs colls, Action.queueFilesForUploadCall fwcs colls ∉
      uploadFilesToNewCollectionsTrace env p z strategy cname toUpload) ∧
    Action.closeUploadProgress ∈
      uploadFilesToNewCollectionsTrace env p z strategy cname toUpload ∧
    Action.showDialog DialogKind.createAlbumFailed ∈
      uploadFilesToNewCollectionsTrace env p z strategy cname toUpload := by
  have herr : ∃ e,
      (groupingPass env (collectionNameToFilesMap strategy cname toUpload)).1 =
        Except.error e := by
    rcases hfail with ⟨e, hs⟩ | ⟨ex, hs, hmem⟩
    · exact ⟨e, by simp [groupingPass, hs]⟩
    · obtain ⟨e, he⟩ := createCollectionsLoop_error_of_mem env ex
        (collectionNameToFilesMap strategy cname toUpload) 0 hmem
      rcases hl : createCollectionsLoop env ex
          (collectionNameToFilesMap strategy cname toUpload) 0 with ⟨r, tr⟩
      rw [hl] at he
      have hr : r = Except.error e := he
      exact ⟨e, by simp [groupingPass, hs, hl, hr]⟩
  obtain ⟨e, he⟩ := herr
  rcases hgp : groupingPass env (collectionNameToFilesMap strategy cname toUpload)
    with ⟨r, tr⟩
  rw [hgp] at he
  have hr : r = Except.error e := he
  subst hr
  have htrace : uploadFilesToNewCollectionsTrace env p z strategy cname toUpload =
      preUploadAction ++
        (tr ++ [Action.logErrorMsg "Failed to upload files to new collections"]) := by
    simp [uploadFilesToNewCollectionsTrace, hgp]
  have hq : tr.countP (fun a => a.isQueueCall) = 0 := by
    have h0 := groupingPass_trace_no_queue env
      (collectionNameToFilesMap strategy cname toUpload)
    rw [hgp] at h0
    exact h0
  have hq2 : ∀ a ∈ tr, ¬ (a.isQueueCall = true) := List.countP_eq_zero.mp hq
  have hfirst : (groupingPass env
      (collectionNameToFilesMap strategy cname toUpload)).1 = Except.error e := by
    simp [hgp]
  refine ⟨⟨e, rfl⟩, ?_, ?_, ?_⟩
  · intro fwcs colls hmem
    rw [htrace] at hmem
    rcases List.mem_append.1 hmem with hpre | hrest
    · simp [preUploadAction] at hpre
    · rcases List.mem_append.1 hrest with htr | hlog
      · exact hq2 _ htr rfl
      · simp at hlog
  · have := groupingPass_error_trace_mem env
      (collectionNameToFilesMap strategy cname toUpload) e hfirst
    rw [hgp] at this
    rw [htrace]
    exact List.mem_append_right _ (List.mem_append_left _ this.1)
  · have := groupingPass_error_trace_mem env
      (collectionNameToFilesMap strategy cname toUpload) e hfirst
    rw [hgp] at this
    rw [htrace]
    exact List.mem_append_right _ (List.mem_append_left _ this.2)

/-- Witness for C1: one group whose album creation rejects. -/
theorem C1_album_creation_failure_aborts_witness :
    Action.showDialog DialogKind.createAlbumFailed ∈
      uploadFilesToNewCollectionsTrace
        { syncCollections := Except.ok [],
          createAlbum := fun _ _ => Except.error (CustomError.other "boom"),
          queueFilesForUpload := fun _ _ => Except.ok (),
          retryFailedFiles := Except.ok (), isElectron := false }
        false none UploadStrategy.singleCollection "Trip"
        [{ name := "x.jpg", parent := "" }] :=
  (C1_album_creation_failure_aborts _ false none
    UploadStrategy.singleCollection "Trip" [{ name := "x.jpg", parent := "" }]
    (Or.inr ⟨[], rfl, ("Trip", [{ name := "x.jpg", parent := "" }]),
      by decide, CustomError.other "boom", rfl⟩)).2.2.2

/-- C2: the `localID`s of the batches built by
`uploadFilesToExistingCollection` and by `uploadFilesToNewCollections`
are the consecutive indices `0, 1, ...` of a single increasing counter
fixed at batch-build time, hence pairwise distinct. -/
theorem C2_localIDs_distinct (files : List UFile) (c : Collection) (env : Env)
    (ex : List Collection) (groups : List (String × List UFile))
    (cs : List Collection) (fs : List FileWithCollection) (tr : List Action)
    (h : createCollectionsLoop env ex groups 0 = (Except.ok (cs, fs), tr)) :
    ((filesWithCollectionForExisting files c).map (fun fwc => fwc.localID) =
      List.range files.length) ∧
    (fs.map (fun fwc => fwc.localID) =
      List.range ((groups.map (fun g => g.2.length)).sum)) ∧
    ((filesWithCollectionForExisting files c).map
      (fun fwc => fwc.localID)).Nodup ∧
    (fs.map (fun fwc => fwc.localID)).Nodup := by
  have h1 : (filesWithCollectionForExisting files c).map (fun fwc => fwc.localID)
      = List.range files.length := by
    unfold filesWithCollectionForExisting
    rw [List.map_map]
    exact List.enum_map_fst files
  have h2 : fs.map (fun fwc => fwc.localID) =
      List.range ((groups.map (fun g => g.2.length)).sum) := by
    have := createCollectionsLoop_localIDs env ex groups 0 cs fs tr h
    simpa using this
  exact ⟨h1, h2, h1 ▸ List.nodup_range _, h2 ▸ List.nodup_range _⟩

/-- Witness for C2: a two-group batch receives localIDs 0, 1, 2. -/
theorem C2_localIDs_distinct_witness :
    (([{ file := { name := "x", parent := "" }, localID := 0, collectionID := 7 },
       { file := { name := "y", parent := "" }, localID := 1, collectionID := 7 },
       { file := { name := "z", parent := "" }, localID := 2, collectionID := 7 }] :
        List FileWithCollection).map (fun fwc => fwc.localID)).Nodup ∧
    ((filesWithCollectionForExisting
        [{ name := "a", parent := "" }, { name := "b", parent := "" }]
        { id := 3, name := "E" }).map (fun fwc => fwc.localID)).Nodup :=
  ⟨(C2_localIDs_distinct []
      { id := 3, name := "E" }
      { syncCollections := Except.ok [],
        createAlbum := fun n _ => Except.ok { id := 7, name := n },
        queueFilesForUpload := fun _ _ => Except.ok (),
        retryFailedFiles := Except.ok (), isElectron := false }
      []
      [("A", [{ name := "x", parent := "" }, { name := "y", parent := "" }]),
       ("B", [{ name := "z", parent := "" }])]
      [{ id := 7, name := "A" }, { id := 7, name := "B" }]
      [{ file := { name := "x", parent := "" }, localID := 0, collectionID := 7 },
       { file := { name := "y", parent := "" }, localID := 1, collectionID := 7 },
       { file := { name := "z", parent := "" }, localID := 2, collectionID := 7 }]
      [Action.createAlbumCall "A", Action.createAlbumCall "B"]
      rfl).2.2.2,
   (C2_localIDs_distinct
      [{ name := "a", parent := "" }, { name := "b", parent := "" }]
      { id := 3, name := "E" }
      { syncCollections := Except.ok [],
        createAlbum := fun n _ => Except.ok { id := 7, name := n },
        queueFilesForUpload := fun _ _ => Except.ok (),
        retryFailedFiles := Except.ok (), isElectron := false }
      [] [] [] [] [] rfl).2.2.1⟩

/-- C3: on a successful grouping pass, `createAlbum` is called exactly
once per distinct group name (and never for any other name), and every
file of a group is paired with the id of exactly the collection returned
by that group's single call. -/
theorem C3_one_album_per_group (env : Env) (ex : List Collection)
    (strategy : UploadStrategy) (cname : String) (toUpload : List UFile)
    (cs : List Collection) (fs : List FileWithCollection) (tr : List Action)
    (h : createCollectionsLoop env ex
      (collectionNameToFilesMap strategy cname toUpload) 0 =
        (Except.ok (cs, fs), tr)) :
    (∀ n ∈ (collectionNameToFilesMap strategy cname toUpload).map Prod.fst,
      tr.count (Action.createAlbumCall n) = 1) ∧
    (∀ n, n ∉ (collectionNameToFilesMap strategy cname toUpload).map Prod.fst →
      tr.count (Action.createAlbumCall n) = 0) ∧
    (∀ g ∈ collectionNameToFilesMap strategy cname toUpload,
      ∃ c, env.createAlbum g.1 ex = Except.ok c ∧
        ∀ f ∈ g.2, ∃ fwc ∈ fs, fwc.file = f ∧ fwc.collectionID = c.id) ∧
    (∀ fwc ∈ fs, ∃ g ∈ collectionNameToFilesMap strategy cname toUpload,
      ∃ c, env.createAlbum g.1 ex = Except.ok c ∧ fwc.file ∈ g.2 ∧
        fwc.collectionID = c.id) := by
  have htr := createCollectionsLoop_trace_of_ok env ex
    (collectionNameToFilesMap strategy cname toUpload) 0 cs fs tr h
  have hinj : Function.Injective (fun n => Action.createAlbumCall n) :=
    fun a b hab => by simpa using hab
  have hkeys := collectionNameToFilesMap_keys_nodup strategy cname toUpload
  have hmapped : tr =
      ((collectionNameToFilesMap strategy cname toUpload).map Prod.fst).map
        (fun n => Action.createAlbumCall n) := by
    rw [htr, List.map_map]
    rfl
  refine ⟨?_, ?_,
    createCollectionsLoop_assigns env ex _ 0 cs fs tr h,
    createCollectionsLoop_sound env ex _ 0 cs fs tr h⟩
  · intro n hn
    rw [hmapped, List.count_map_of_injective _ _ hinj]
    exact List.count_eq_one_of_mem hkeys hn
  · intro n hn
    rw [hmapped, List.count_map_of_injective _ _ hinj]
    exact List.count_eq_zero_of_not_mem hn

/-- Witness for C3: one group yields exactly one `createAlbum` call. -/
theorem C3_one_album_per_group_witness :
    ([Action.createAlbumCall "Trip"] : List Action).count
      (Action.createAlbumCall "Trip") = 1 :=
  (C3_one_album_per_group
    { syncCollections := Except.ok [],
      createAlbum := fun n _ => Except.ok { id := 7, name := n },
      queueFilesForUpload := fun _ _ => Except.ok (),
      retryFailedFiles := Except.ok (), isElectron := false }
    [] UploadStrategy.singleCollection "Trip" [{ name := "x", parent := "" }]
    [{ id := 7, name := "Trip" }]
    [{ file := { name := "x", parent := "" }, localID := 0, collectionID := 7 }]
    [Action.createAlbumCall "Trip"] rfl).1 "Trip" (by decide)

/-- C7: a persisted pending desktop upload with a non-empty file list
yields, on process restart, exactly one resumption attempt: the record
is read once and cleared, the batch routes to a single new collection
with the recorded name when one was recorded and to per-folder grouping
otherwise, the pending flag is consumed by that attempt (before the
resumed batch runs, hence regardless of its outcome), and a second run
of the arrival effect is a no-op. -/
theorem C7_resume_exactly_once (r : PendingUploadRecord) (firstUp : Bool)
    (hne : r.files ≠ []) :
    (startupReadPendingUploads (some r) (initialUploaderState true firstUp)).1 =
      none ∧
    (filesArrivedEffect
      (startupReadPendingUploads (some r)
        (initialUploaderState true firstUp)).2).2 =
      some (if r.collectionName = "" then UploadRoute.newCollectionsPerFolder
            else UploadRoute.singleNewCollection r.collectionName) ∧
    ((filesArrivedEffect
      (startupReadPendingUploads (some r)
        (initialUploaderState true firstUp)).2).1).isPendingDesktopUpload =
      false ∧
    filesArrivedEffect
      ((filesArrivedEffect
        (startupReadPendingUploads (some r)
          (initialUploaderState true firstUp)).2).1) =
      ((filesArrivedEffect
        (startupReadPendingUploads (some r)
          (initialUploaderState true firstUp)).2).1, none) := by
  by_cases hn : r.collectionName = "" <;>
    simp [startupReadPendingUploads, resumeDesktopUpload, initialUploaderState,
      filesArrivedEffect, handleCollectionCreationAndUpload,
      uploadToSingleNewCollection, getImportSuggestion, hne, hn]

/-- Witness for C7: a record of one file with recorded name "Trip". -/
theorem C7_resume_exactly_once_witness :
    (filesArrivedEffect
      (startupReadPendingUploads
        (some { files := [{ name := "x", parent := "A" }],
                collectionName := "Trip", typ := UploadType.files })
        (initialUploaderState true false)).2).2 =
      some (if ("Trip" : String) = "" then UploadRoute.newCollectionsPerFolder
            else UploadRoute.singleNewCollection "Trip") :=
  (C7_resume_exactly_once
    { files := [{ name := "x", parent := "A" }],
      collectionName := "Trip", typ := UploadType.files }
    false (by decide)).2.1

end Ente
